import Mathlib

/-!
# Verification of the filter-engine data model
Shallow embedding of `pydis_site/apps/api/models/bot/filters.py`:
the ping/bypass token validators, the field schemas of `FilterSettingsMixin`,
`FilterList` and `Filter`, the `(name, list_type)` uniqueness constraint, the
cascade-delete ownership relation, and the channel/category scope resolution
described by the comment on `FilterList` and by the specification.
-/

set_option autoImplicit false

namespace Filters

/-- Single-quote character (U+0027), used to build Python `repr` strings. -/
def apos : String := String.singleton (Char.ofNat 39)

/-- Model of Python `repr` for the strings appearing in the validators:
`repr(s)` wraps `s` in single quotes. (Python additionally escapes quotes,
backslashes and control characters inside `s`; no theorem below evaluates
`pyRepr` on such a string.) -/
def pyRepr (s : String) : String := apos ++ s ++ apos

/-- Model of the character class accepted by Python `str.isnumeric`: code
points whose Unicode `Numeric_Type` is `Decimal`, `Digit` or `Numeric`.
The full Unicode table is large; this model lists the ASCII digits together
with the common numeric blocks, and agrees with Unicode on every code point
evaluated in this file (in particular on all of ASCII, on U+00B2 SUPERSCRIPT
TWO and on U+00BD VULGAR FRACTION ONE HALF, which are numeric). -/
def pyNumericChar (c : Char) : Bool :=
  let n := c.toNat
  (0x30 ≤ n && n ≤ 0x39) ||                 -- ASCII digits 0-9
  n == 0xB2 || n == 0xB3 || n == 0xB9 ||    -- superscript two, three, one
  (0xBC ≤ n && n ≤ 0xBE) ||                 -- vulgar fractions 1/4 1/2 3/4
  (0x660 ≤ n && n ≤ 0x669) ||               -- Arabic-Indic digits
  (0x6F0 ≤ n && n ≤ 0x6F9) ||               -- extended Arabic-Indic digits
  (0x966 ≤ n && n ≤ 0x96F) ||               -- Devanagari digits
  n == 0x2070 || (0x2074 ≤ n && n ≤ 0x2079) || -- superscript zero, four-nine
  (0x2080 ≤ n && n ≤ 0x2089) ||             -- subscript digits
  (0x2150 ≤ n && n ≤ 0x2182) ||             -- fractions and Roman numerals
  (0xFF10 ≤ n && n ≤ 0xFF19)                -- fullwidth digits

/-- Python `str.isnumeric`: true iff the string is non-empty and every
character is numeric.  The empty string is NOT numeric. -/
def pyIsNumeric (s : String) : Bool :=
  !s.isEmpty && s.toList.all pyNumericChar

/-- The spec-side predicate: the regular expression `^[0-9]+$`, i.e. a
non-empty string consisting entirely of ASCII decimal digits. -/
def asciiDigitsOnly (s : String) : Bool :=
  !s.isEmpty && s.toList.all Char.isDigit

/-- `VALID_PINGS = ("everyone", "here", "moderators", "onduty", "admins")`. -/
def VALID_PINGS : List String := ["everyone", "here", "moderators", "onduty", "admins"]

/-- `VALID_BYPASS_ROLES = ("staff",)`. -/
def VALID_BYPASS_ROLES : List String := ["staff"]

/-- Error message raised by `validate_ping_field`: the Python f-string
interpolating the repr of the value into the fixed text
`is not a valid ping type` (spelled with a contraction in the source). -/
def pingError (value : String) : String :=
  pyRepr value ++ " isn" ++ apos ++ "t a valid ping type."

/-- Error message raised by `validate_bypass_roles_field`: the Python
f-string interpolating the repr of the value into the fixed text
`is not a valid (bypass) role` (spelled with a contraction in the source). -/
def bypassError (value : String) : String :=
  pyRepr value ++ " isn" ++ apos ++ "t a valid (bypass) role."

/-- `validate_ping_field`: for each value, continue if it is a special value,
else continue if `value.isnumeric()`, else raise `ValidationError`.  The
raised message is the error payload; `.ok ()` models returning `None`. -/
def validate_ping_field : List String → Except String Unit
  | [] => Except.ok ()
  | value :: rest =>
    if value ∈ VALID_PINGS then validate_ping_field rest
    else if pyIsNumeric value then validate_ping_field rest
    else Except.error (pingError value)

/-- `validate_bypass_roles_field`: for each value, continue if
`value.isnumeric()` or it is a special bypass value, else raise. -/
def validate_bypass_roles_field : List String → Except String Unit
  | [] => Except.ok ()
  | value :: rest =>
    if pyIsNumeric value = true ∨ value ∈ VALID_BYPASS_ROLES then
      validate_bypass_roles_field rest
    else Except.error (bypassError value)

/-- The per-token acceptance condition of `validate_ping_field`. -/
def PingTokenValid (v : String) : Prop :=
  v ∈ VALID_PINGS ∨ pyIsNumeric v = true

instance (v : String) : Decidable (PingTokenValid v) := by
  unfold PingTokenValid; infer_instance

/-- The per-token acceptance condition of `validate_bypass_roles_field`. -/
def BypassTokenValid (v : String) : Prop :=
  pyIsNumeric v = true ∨ v ∈ VALID_BYPASS_ROLES

instance (v : String) : Decidable (BypassTokenValid v) := by
  unfold BypassTokenValid; infer_instance

theorem validate_ping_field_ok_iff (l : List String) :
    validate_ping_field l = Except.ok () ↔ ∀ v ∈ l, PingTokenValid v := by
  induction l with
  | nil => simp [validate_ping_field]
  | cons v rest ih =>
    by_cases h1 : v ∈ VALID_PINGS
    · rw [show validate_ping_field (v :: rest) = validate_ping_field rest by
        simp [validate_ping_field, h1], ih]
      constructor
      · intro h w hw
        rcases List.mem_cons.mp hw with rfl | hw'
        · exact Or.inl h1
        · exact h w hw'
      · intro h w hw
        exact h w (List.mem_cons_of_mem _ hw)
    · by_cases h2 : pyIsNumeric v = true
      · rw [show validate_ping_field (v :: rest) = validate_ping_field rest by
          simp [validate_ping_field, h1, h2], ih]
        constructor
        · intro h w hw
          rcases List.mem_cons.mp hw with rfl | hw'
          · exact Or.inr h2
          · exact h w hw'
        · intro h w hw
          exact h w (List.mem_cons_of_mem _ hw)
      · rw [show validate_ping_field (v :: rest) = Except.error (pingError v) by
          simp [validate_ping_field, h1, h2]]
        constructor
        · intro h; cases h
        · intro h
          rcases h v (List.mem_cons_self v rest) with hc | hn
          · exact absurd hc h1
          · exact absurd hn h2

theorem validate_bypass_roles_field_ok_iff (l : List String) :
    validate_bypass_roles_field l = Except.ok () ↔ ∀ v ∈ l, BypassTokenValid v := by
  induction l with
  | nil => simp [validate_bypass_roles_field]
  | cons v rest ih =>
    by_cases h1 : pyIsNumeric v = true ∨ v ∈ VALID_BYPASS_ROLES
    · rw [show validate_bypass_roles_field (v :: rest) = validate_bypass_roles_field rest by
        simp [validate_bypass_roles_field, h1], ih]
      constructor
      · intro h w hw
        rcases List.mem_cons.mp hw with rfl | hw'
        · exact h1
        · exact h w hw'
      · intro h w hw
        exact h w (List.mem_cons_of_mem _ hw)
    · rw [show validate_bypass_roles_field (v :: rest) = Except.error (bypassError v) by
        simp [validate_bypass_roles_field, h1]]
      constructor
      · intro h; cases h
      · intro h
        exact absurd (h v (List.mem_cons_self v rest)) h1

/-- C1: the claim states that `validate_ping_field` accepts exactly the
sequences whose every token is a special ping value or matches `^[0-9]+$`.
The code instead tests Python `str.isnumeric`, which also accepts non-ASCII
Unicode numeric characters: the one-character string U+00BD (VULGAR FRACTION
ONE HALF) is accepted by the validator although it is not a special value and
does not match `^[0-9]+$`.  This evaluates the code at that failing input. -/
theorem validate_ping_field_accepts_nonascii_numeric :
    validate_ping_field [String.singleton (Char.ofNat 0xBD)] = Except.ok () ∧
    asciiDigitsOnly (String.singleton (Char.ofNat 0xBD)) = false ∧
    (String.singleton (Char.ofNat 0xBD)) ∉ VALID_PINGS := by
  refine ⟨?_, by decide, by decide⟩
  rw [(validate_ping_field_ok_iff _)]
  intro v hv
  rcases List.mem_singleton.mp hv with rfl
  exact Or.inr (by decide)

/-- C2: same gap for `validate_bypass_roles_field`: the one-character string
U+00B2 (SUPERSCRIPT TWO) satisfies Python `str.isnumeric`, so the validator
accepts it, although it is neither `"staff"` nor a match of `^[0-9]+$`. -/
theorem validate_bypass_roles_field_accepts_nonascii_numeric :
    validate_bypass_roles_field [String.singleton (Char.ofNat 0xB2)] = Except.ok () ∧
    asciiDigitsOnly (String.singleton (Char.ofNat 0xB2)) = false ∧
    (String.singleton (Char.ofNat 0xB2)) ∉ VALID_BYPASS_ROLES := by
  refine ⟨?_, by decide, by decide⟩
  rw [(validate_bypass_roles_field_ok_iff _)]
  intro v hv
  rcases List.mem_singleton.mp hv with rfl
  exact Or.inl (by decide)

/-- C3: both validators succeed on the empty sequence, the empty string is
neither numeric nor a special value, and any sequence containing the empty
string fails both validators. -/
theorem validators_empty_list_ok_empty_string_fails :
    validate_ping_field [] = Except.ok () ∧
    validate_bypass_roles_field [] = Except.ok () ∧
    pyIsNumeric "" = false ∧
    "" ∉ VALID_PINGS ∧
    "" ∉ VALID_BYPASS_ROLES ∧
    ∀ l : List String, "" ∈ l →
      validate_ping_field l ≠ Except.ok () ∧
      validate_bypass_roles_field l ≠ Except.ok () := by
  refine ⟨rfl, rfl, by decide, by decide, by decide, ?_⟩
  intro l hl
  constructor
  · intro h
    have h2 := (validate_ping_field_ok_iff l).1 h "" hl
    have h3 : ¬ PingTokenValid "" := by decide
    exact h3 h2
  · intro h
    have h2 := (validate_bypass_roles_field_ok_iff l).1 h "" hl
    have h3 : ¬ BypassTokenValid "" := by decide
    exact h3 h2

/-- Witness for C3: the inner hypothesis discharged at the concrete sequence
`[""]`. -/
theorem validators_empty_list_ok_empty_string_fails_witness :
    validate_ping_field [""] ≠ Except.ok () :=
  (validators_empty_list_ok_empty_string_fails.2.2.2.2.2 [""] (by decide)).1

/-- `listHasInfix pat l` is true iff `pat` occurs contiguously inside `l`. -/
def listHasInfix (pat : List Char) : List Char → Bool
  | [] => pat.isEmpty
  | c :: t => pat.isPrefixOf (c :: t) || listHasInfix pat t

/-- Substring test: `strContainsSub hay pat` is true iff `pat` occurs
contiguously inside `hay`. -/
def strContainsSub (hay pat : String) : Bool :=
  listHasInfix pat.toList hay.toList

/-- First-invalid-token behaviour of `validate_ping_field`: with every token
of `good` valid and `bad` invalid, the validator raises exactly the message
for `bad`, whatever follows it. -/
theorem validate_ping_field_first_invalid (good : List String) (bad : String)
    (rest : List String) (hg : ∀ v ∈ good, PingTokenValid v)
    (hb : ¬ PingTokenValid bad) :
    validate_ping_field (good ++ bad :: rest) = Except.error (pingError bad) := by
  induction good with
  | nil =>
    have h1 : bad ∉ VALID_PINGS := fun h => hb (Or.inl h)
    have h2 : ¬ pyIsNumeric bad = true := fun h => hb (Or.inr h)
    simp [validate_ping_field, h1, h2]
  | cons v g ih =>
    have hrec := ih (fun w hw => hg w (List.mem_cons_of_mem _ hw))
    rcases hg v (List.mem_cons_self v g) with h1 | h2
    · simp [validate_ping_field, h1, hrec]
    · by_cases h1 : v ∈ VALID_PINGS
      · simp [validate_ping_field, h1, hrec]
      · simp [validate_ping_field, h1, h2, hrec]

/-- First-invalid-token behaviour of `validate_bypass_roles_field`. -/
theorem validate_bypass_roles_field_first_invalid (good : List String) (bad : String)
    (rest : List String) (hg : ∀ v ∈ good, BypassTokenValid v)
    (hb : ¬ BypassTokenValid bad) :
    validate_bypass_roles_field (good ++ bad :: rest) = Except.error (bypassError bad) := by
  induction good with
  | nil =>
    have h1 : ¬ (pyIsNumeric bad = true ∨ bad ∈ VALID_BYPASS_ROLES) := hb
    simp [validate_bypass_roles_field, h1]
  | cons v g ih =>
    have hrec := ih (fun w hw => hg w (List.mem_cons_of_mem _ hw))
    have hv : pyIsNumeric v = true ∨ v ∈ VALID_BYPASS_ROLES := hg v (List.mem_cons_self v g)
    simp [validate_bypass_roles_field, hv, hrec]

/-! ## Field schemas

The Django model classes are embedded as lists of field descriptors
recording, for each declared field, its name, kind, `null` flag, whether a
default value is declared (and the default, for boolean fields), and its
`max_length` (for array fields, the element `max_length`). -/

/-- The kinds of Django fields used in `filters.py`. -/
inductive FieldKind where
  | char | duration | bool | arrayChar | arrayInt | integer | json | fk
deriving DecidableEq

/-- A Django model field descriptor: name, kind, `null` flag, presence of a
declared default, the boolean default if any, and `max_length` if any. -/
structure FieldSpec where
  name : String
  kind : FieldKind
  null : Bool
  hasDefault : Bool
  boolDefault : Option Bool
  maxLength : Option Nat
deriving DecidableEq

/-- The fields of `FilterSettingsMixin`, shared verbatim by `FilterList` and
`Filter`: only `infraction_reason` lacks `null=True`, so it is non-nullable
(Django defaults `null` to `False`). -/
def filterSettingsMixinFields : List FieldSpec :=
  [⟨"dm_content", .char, true, false, none, some 1000⟩,
   ⟨"dm_embed", .char, true, false, none, some 2000⟩,
   ⟨"infraction_type", .char, true, false, none, some 9⟩,
   ⟨"infraction_reason", .char, false, false, none, some 1000⟩,
   ⟨"infraction_duration", .duration, true, false, none, none⟩]

/-- The fields declared directly on `FilterList` (all `null=False`;
`send_alert` is the only field with a declared default, `default=True`;
the three scope arrays omit `null`, so Django defaults them to
`null=False`). -/
def filterListOwnFields : List FieldSpec :=
  [⟨"name", .char, false, false, none, some 50⟩,
   ⟨"list_type", .integer, false, false, none, none⟩,
   ⟨"ping_type", .arrayChar, false, false, none, some 20⟩,
   ⟨"filter_dm", .bool, false, false, none, none⟩,
   ⟨"dm_ping_type", .arrayChar, false, false, none, some 20⟩,
   ⟨"delete_messages", .bool, false, false, none, none⟩,
   ⟨"bypass_roles", .arrayChar, false, false, none, some 100⟩,
   ⟨"enabled", .bool, false, false, none, none⟩,
   ⟨"send_alert", .bool, false, true, some true, none⟩,
   ⟨"enabled_channels", .arrayInt, false, false, none, none⟩,
   ⟨"disabled_channels", .arrayInt, false, false, none, none⟩,
   ⟨"disabled_categories", .arrayInt, false, false, none, none⟩]

/-- All fields of the `FilterList` model: the inherited mixin fields followed
by its own declarations. -/
def filterListFields : List FieldSpec :=
  filterSettingsMixinFields ++ filterListOwnFields

/-- The fields declared directly on `Filter` (every settings field is
`null=True`; `content`, `description` and the `filter_list` foreign key are
required; `additional_field` is a nullable JSON field). -/
def filterOwnFields : List FieldSpec :=
  [⟨"content", .char, false, false, none, some 100⟩,
   ⟨"description", .char, false, false, none, some 200⟩,
   ⟨"additional_field", .json, true, false, none, none⟩,
   ⟨"filter_list", .fk, false, false, none, none⟩,
   ⟨"ping_type", .arrayChar, true, false, none, some 20⟩,
   ⟨"filter_dm", .bool, true, false, none, none⟩,
   ⟨"dm_ping_type", .arrayChar, true, false, none, some 20⟩,
   ⟨"delete_messages", .bool, true, false, none, none⟩,
   ⟨"bypass_roles", .arrayChar, true, false, none, some 100⟩,
   ⟨"enabled", .bool, true, false, none, none⟩,
   ⟨"send_alert", .bool, true, false, none, none⟩,
   ⟨"enabled_channels", .arrayInt, true, false, none, none⟩,
   ⟨"disabled_channels", .arrayInt, true, false, none, none⟩,
   ⟨"disabled_categories", .arrayInt, true, false, none, none⟩]

/-- All fields of the `Filter` model. -/
def filterFields : List FieldSpec :=
  filterSettingsMixinFields ++ filterOwnFields

/-- The names of the Settings fields shared by `FilterList` and `Filter`
(spec section 3). -/
def settingsFieldNames : List String :=
  ["dm_content", "dm_embed", "infraction_type", "infraction_reason",
   "infraction_duration", "ping_type", "filter_dm", "dm_ping_type",
   "delete_messages", "bypass_roles", "enabled", "send_alert",
   "enabled_channels", "disabled_channels", "disabled_categories"]

/-- The Settings fields declared directly on each model (not inherited from
the mixin): exactly these differ in nullability between the two models. -/
def directSettingsFieldNames : List String :=
  ["ping_type", "filter_dm", "dm_ping_type", "delete_messages",
   "bypass_roles", "enabled", "send_alert",
   "enabled_channels", "disabled_channels", "disabled_categories"]

/-- C4 counterexample: the `ValidationError` raised by the validators carries
only the message built from the offending token; the message for a bad ping
token does not contain the name of any of the validated fields (`ping_type`,
`dm_ping_type`, `bypass_roles` — which are fields of the models, as the last
three conjuncts record).  In particular `ping_type` and `dm_ping_type` share
the same validator and the same message, so the raised error cannot identify
which field was being validated. -/
theorem validator_error_lacks_field_name :
    validate_ping_field ["x"] = Except.error (pingError "x") ∧
    strContainsSub (pingError "x") "ping_type" = false ∧
    strContainsSub (pingError "x") "dm_ping_type" = false ∧
    strContainsSub (pingError "x") "bypass_roles" = false ∧
    validate_bypass_roles_field ["x"] = Except.error (bypassError "x") ∧
    strContainsSub (bypassError "x") "bypass_roles" = false ∧
    (filterListFields.map FieldSpec.name).contains "ping_type" = true ∧
    (filterListFields.map FieldSpec.name).contains "dm_ping_type" = true ∧
    (filterListFields.map FieldSpec.name).contains "bypass_roles" = true := by
  exact ⟨rfl, by decide, by decide, by decide, rfl, by decide, by decide, by decide, by decide⟩

/-- C4 amended: when a token sequence contains an invalid token, validation
fails at the first invalid token — the tokens after it are irrelevant — and
the raised error is exactly the message built from the repr of that token and
the validator kind ("ping type" / "(bypass) role"); the specific field name
is not part of the raised message. -/
theorem validators_fail_fast_first_invalid :
    (∀ (good : List String) (bad : String) (rest : List String),
      (∀ v ∈ good, PingTokenValid v) → ¬ PingTokenValid bad →
      validate_ping_field (good ++ bad :: rest) =
        Except.error (pyRepr bad ++ " isn" ++ apos ++ "t a valid ping type.")) ∧
    (∀ (good : List String) (bad : String) (rest : List String),
      (∀ v ∈ good, BypassTokenValid v) → ¬ BypassTokenValid bad →
      validate_bypass_roles_field (good ++ bad :: rest) =
        Except.error (pyRepr bad ++ " isn" ++ apos ++ "t a valid (bypass) role.")) :=
  ⟨fun good bad rest hg hb => validate_ping_field_first_invalid good bad rest hg hb,
   fun good bad rest hg hb => validate_bypass_roles_field_first_invalid good bad rest hg hb⟩

/-- Witness for C4: the fail-fast theorem applied at the concrete sequence
`["everyone", "x", "123"]`, whose first invalid token is `"x"`. -/
theorem validators_fail_fast_first_invalid_witness :
    validate_ping_field ["everyone", "x", "123"] =
      Except.error (pyRepr "x" ++ " isn" ++ apos ++ "t a valid ping type.") :=
  validators_fail_fast_first_invalid.1 ["everyone"] "x" ["123"] (by decide) (by decide)

/-- C5 counterexample: it is false that every Settings field is nullable on
`Filter` and non-nullable on `FilterList`: the mixin is inherited verbatim by
both models, so `infraction_reason` (`null=False`) is non-nullable on
`Filter`, and `dm_content` (`null=True`) is nullable on `FilterList`. -/
theorem settings_nullability_claim_false :
    ¬ ((∀ f ∈ filterFields, f.name ∈ settingsFieldNames → f.null = true) ∧
       (∀ f ∈ filterListFields, f.name ∈ settingsFieldNames → f.null = false)) := by
  decide

/-- C5 amended: the ten Settings fields declared directly on the models are
nullable on `Filter` and non-nullable on `FilterList`, but the five fields
inherited from `FilterSettingsMixin` have the same nullability on both
models: all nullable except `infraction_reason`, which is non-nullable on
both — so a `Filter` cannot set `infraction_reason` to null. -/
theorem settings_nullability_by_declaration :
    (filterFields.all fun f =>
      !(directSettingsFieldNames.contains f.name) || f.null) = true ∧
    (filterListFields.all fun f =>
      !(directSettingsFieldNames.contains f.name) || !f.null) = true ∧
    (filterSettingsMixinFields.all fun f =>
      ((f.null == false) == (f.name == "infraction_reason"))) = true ∧
    (filterFields.map FieldSpec.name).contains "infraction_reason" = true ∧
    (filterFields.all fun f =>
      !(f.name == "infraction_reason") || !f.null) = true := by
  decide

/-- C8: on `FilterList`, `send_alert` is a boolean field with declared
default `True`, and it is the only field of the model with any declared
default; in particular every other boolean field (`filter_dm`,
`delete_messages`, `enabled`) must be supplied explicitly. -/
theorem filterList_send_alert_only_default :
    (filterListFields.any fun f =>
      f.name == "send_alert" && f.kind == FieldKind.bool &&
        f.hasDefault && f.boolDefault == some true) = true ∧
    (filterListFields.all fun f =>
      f.name == "send_alert" || !f.hasDefault) = true := by
  decide

/-! ## Persistence model

`FilterList.Meta` declares `UniqueConstraint(fields=("name", "list_type"),
name="unique_name_type")`, and `Filter.filter_list` is a
`ForeignKey(FilterList, models.CASCADE)`.  The write/delete semantics that
enforce them live in the persistence collaborator, which is modelled from
the spec below. -/

/-- `FilterListType`: `ALLOW = 1`, `DENY = 0` (an `IntegerChoices` enum). -/
inductive FilterListType where
  | ALLOW | DENY
deriving DecidableEq

/-- The integer stored for a `FilterListType` choice. -/
def FilterListType.value : FilterListType → Nat
  | .ALLOW => 1
  | .DENY => 0

/-- A stored `FilterList` row, restricted to the columns the uniqueness
constraint and the ownership relation consult: primary key, `name` and the
stored `list_type` integer. -/
structure FilterListRow where
  id : Nat
  name : String
  list_type : Nat
deriving DecidableEq

/-- A stored `Filter` row: primary key, `content` and the `filter_list`
foreign key. -/
structure FilterRow where
  id : Nat
  content : String
  filter_list : Nat
deriving DecidableEq

/-- Errors of the persistence collaborator. -/
inductive SaveError where
  | ConstraintViolation
deriving DecidableEq

/-- The `unique_name_type` constraint check: a candidate row violates it iff
some stored row already has the same `name` and the same `list_type`. -/
def violatesUniqueNameType (rows : List FilterListRow) (r : FilterListRow) : Bool :=
  rows.any fun q => q.name == r.name && q.list_type == r.list_type

/-- Modelled from the spec: the `save(FilterList)` operation of the
persistence collaborator, which "must enforce the (name, list_type)
uniqueness constraint atomically at write time" — the constraint fields are
those declared by `FilterList.Meta` in the source.  It returns the stored
rows after the write together with an optional error: a duplicate is
rejected with a `ConstraintViolation` and the rows are unchanged. -/
def saveFilterList (rows : List FilterListRow) (r : FilterListRow) :
    List FilterListRow × Option SaveError :=
  if violatesUniqueNameType rows r then (rows, some SaveError.ConstraintViolation)
  else (rows ++ [r], none)

/-- A stored state: `FilterList` rows and `Filter` rows. -/
structure Store where
  filterLists : List FilterListRow
  filters : List FilterRow
deriving DecidableEq

/-- Modelled from the spec: deleting a `FilterList` under the
`on_delete=CASCADE` declaration of `Filter.filter_list` — the list row is
removed and every `Filter` row referencing it is removed with it. -/
def deleteFilterList (s : Store) (lid : Nat) : Store :=
  ⟨s.filterLists.filter fun l => l.id != lid,
   s.filters.filter fun fr => fr.filter_list != lid⟩

/-- C6: saving a `FilterList` whose `name` and `list_type` both coincide
with an already-stored row is rejected with a `ConstraintViolation` and the
stored rows are unchanged. -/
theorem saveFilterList_rejects_duplicate (rows : List FilterListRow)
    (r q : FilterListRow) (hq : q ∈ rows) (hname : q.name = r.name)
    (htype : q.list_type = r.list_type) :
    saveFilterList rows r = (rows, some SaveError.ConstraintViolation) := by
  have hv : violatesUniqueNameType rows r = true :=
    List.any_eq_true.2 ⟨q, hq, by simp [hname, htype]⟩
  simp [saveFilterList, hv]

/-- Witness for C6: a second `("nsfw", DENY)` list is rejected. -/
theorem saveFilterList_rejects_duplicate_witness :
    saveFilterList [⟨0, "nsfw", FilterListType.value .DENY⟩]
        ⟨1, "nsfw", FilterListType.value .DENY⟩ =
      ([⟨0, "nsfw", FilterListType.value .DENY⟩], some SaveError.ConstraintViolation) :=
  saveFilterList_rejects_duplicate _ _ ⟨0, "nsfw", FilterListType.value .DENY⟩
    (by decide) rfl rfl

/-- C10: `name` alone is not unique — two `FilterList` rows with the same
name but different `list_type` values can both be saved, in either order,
without any constraint violation. -/
theorem filterLists_same_name_different_type_coexist (nm : String)
    (t1 t2 : FilterListType) (i j : Nat) (h : t1 ≠ t2) :
    saveFilterList [] ⟨i, nm, t1.value⟩ = ([⟨i, nm, t1.value⟩], none) ∧
    saveFilterList [⟨i, nm, t1.value⟩] ⟨j, nm, t2.value⟩ =
      ([⟨i, nm, t1.value⟩, ⟨j, nm, t2.value⟩], none) := by
  have hv : t1.value ≠ t2.value := by
    cases t1 <;> cases t2 <;> simp_all [FilterListType.value]
  constructor
  · simp [saveFilterList, violatesUniqueNameType]
  · simp [saveFilterList, violatesUniqueNameType, hv]

/-- Witness for C10: `("nsfw", DENY)` then `("nsfw", ALLOW)` both succeed. -/
theorem filterLists_same_name_different_type_coexist_witness :
    saveFilterList [⟨0, "nsfw", FilterListType.value .DENY⟩]
        ⟨1, "nsfw", FilterListType.value .ALLOW⟩ =
      ([⟨0, "nsfw", FilterListType.value .DENY⟩,
        ⟨1, "nsfw", FilterListType.value .ALLOW⟩], none) :=
  (filterLists_same_name_different_type_coexist "nsfw" .DENY .ALLOW 0 1 (by decide)).2

/-- C9: deleting a `FilterList` removes exactly its own `Filter` rows and its
own row: no remaining filter references the deleted list, every remaining
filter was already stored, every filter of another list survives, every
remaining list was already stored and is not the deleted one, and every
other list survives. -/
theorem deleteFilterList_cascades (s : Store) (lid : Nat) :
    (∀ fr ∈ (deleteFilterList s lid).filters, fr.filter_list ≠ lid) ∧
    (∀ fr ∈ (deleteFilterList s lid).filters, fr ∈ s.filters) ∧
    (∀ fr ∈ s.filters, fr.filter_list ≠ lid → fr ∈ (deleteFilterList s lid).filters) ∧
    (∀ l ∈ (deleteFilterList s lid).filterLists, l ∈ s.filterLists ∧ l.id ≠ lid) ∧
    (∀ l ∈ s.filterLists, l.id ≠ lid → l ∈ (deleteFilterList s lid).filterLists) := by
  refine ⟨fun fr h => ?_, fun fr h => ?_, fun fr h hne => ?_,
    fun l h => ?_, fun l h hne => ?_⟩
  · have := (List.mem_filter.1 h).2
    simpa using this
  · exact (List.mem_filter.1 h).1
  · exact List.mem_filter.2 ⟨h, by simpa using hne⟩
  · have := List.mem_filter.1 h
    exact ⟨this.1, by simpa using this.2⟩
  · exact List.mem_filter.2 ⟨h, by simpa using hne⟩

/-- Witness for C9: in a store with lists 1 and 2 and one filter on each,
deleting list 1 keeps the filter of list 2. -/
theorem deleteFilterList_cascades_witness :
    FilterRow.mk 11 "bar" 2 ∈
      (deleteFilterList
        ⟨[⟨1, "a", FilterListType.value .ALLOW⟩, ⟨2, "b", FilterListType.value .DENY⟩],
         [⟨10, "foo", 1⟩, ⟨11, "bar", 2⟩]⟩ 1).filters :=
  (deleteFilterList_cascades
      ⟨[⟨1, "a", FilterListType.value .ALLOW⟩, ⟨2, "b", FilterListType.value .DENY⟩],
       [⟨10, "foo", 1⟩, ⟨11, "bar", 2⟩]⟩ 1).2.2.1
    (FilterRow.mk 11 "bar" 2) (by decide) (by decide)

/-! ## Scope resolution -/

/-- Modelled from the spec: the scope-decision step of the Resolution
Algorithm (spec section 4.5, step 2).  The repository source records only the
resolution order, in the comment on `FilterList`: `enabled_channels`, then
`disabled_categories`, then `disabled_channels`; first match wins, and an
empty set is inactive (fall-through). -/
def scopeApplies (enabled_channels disabled_categories disabled_channels : List Int)
    (channel_id category_id : Int) : Bool :=
  if !enabled_channels.isEmpty then decide (channel_id ∈ enabled_channels)
  else if !disabled_categories.isEmpty && decide (category_id ∈ disabled_categories) then
    false
  else if !disabled_channels.isEmpty && decide (channel_id ∈ disabled_channels) then
    false
  else true

/-- Modelled from the spec: the applicability decision — in a DM context the
scope step is skipped and the effective `filter_dm` gates the filter;
otherwise the channel/category scope decides. -/
def filterApplies (is_dm filter_dm : Bool)
    (enabled_channels disabled_categories disabled_channels : List Int)
    (channel_id category_id : Int) : Bool :=
  if is_dm then filter_dm
  else scopeApplies enabled_channels disabled_categories disabled_channels
    channel_id category_id

/-- C7: in a non-DM context, if `enabled_channels` is non-empty the filter
applies iff the channel is in it — the `disabled_*` sets are irrelevant —
and if `enabled_channels` is empty the filter applies iff the category is
not in `disabled_categories` and the channel is not in `disabled_channels`. -/
theorem scope_resolution_priority (fd : Bool) (ec dcat dch : List Int)
    (ch cat : Int) :
    (ec ≠ [] → (filterApplies false fd ec dcat dch ch cat = true ↔ ch ∈ ec)) ∧
    (ec = [] → (filterApplies false fd ec dcat dch ch cat = true ↔
      (cat ∉ dcat ∧ ch ∉ dch))) := by
  constructor
  · intro h
    have he : ec.isEmpty = false := by
      cases ec
      · exact absurd rfl h
      · rfl
    simp [filterApplies, scopeApplies, he]
  · intro h
    subst h
    by_cases hc : cat ∈ dcat
    · have h1 : dcat.isEmpty = false := by
        cases dcat
        · cases hc
        · rfl
      simp [filterApplies, scopeApplies, h1, hc]
    · by_cases hh : ch ∈ dch
      · have h2 : dch.isEmpty = false := by
          cases dch
          · cases hh
          · rfl
        simp [filterApplies, scopeApplies, hc, hh, h2]
      · simp [filterApplies, scopeApplies, hc, hh]

/-- Witness for C7: the priority test from the spec — `enabled_channels = [1, 2]`,
`disabled_channels = [1]`, `channel_id = 1` — the filter applies: rule (a)
wins over rule (c). -/
theorem scope_resolution_priority_witness :
    filterApplies false false [1, 2] [] [1] 1 0 = true :=
  ((scope_resolution_priority false [1, 2] [] [1] 1 0).1 (by decide)).2 (by decide)

end Filters
